import Mathlib

/-!
Verification of the outray-go tunneling client (package `outray`).

The definitions below are a shallow embedding of the Go source:
`types.go` (wire message structs and their JSON tags), `client.go`
(`Connect`, `connectOnce`, `Close`, `SendResponse`, `readLoop`, the
heartbeat goroutine), `tcp.go` (`handleTCPConnection`, `handleTCPData`),
`udp.go` (`handleUDPData`) and `http.go` (`proxyHTTP`).

JSON values are modelled by an inductive `JValue`; Go byte slices by
`List Nat`; the environment of a relay operation (local dial / write /
read outcomes, the local HTTP exchange) by explicit parameters, since the
Go code only branches on whether those operations succeeded and on the
data they returned.
-/

namespace Outray

/-- JSON values as produced and consumed by Go's `encoding/json`.
Objects are association lists (Go maps have unique keys and `json.Marshal`
emits each key once). -/
inductive JValue where
  | null
  | bool (b : Bool)
  | num (n : Int)
  | str (s : String)
  | arr (elems : List JValue)
  | obj (fields : List (String × JValue))

/-- Field lookup in a decoded JSON object (`raw[key]` on the Go map). -/
def lookupField (fields : List (String × JValue)) (k : String) : Option JValue :=
  (fields.find? (fun p => p.1 == k)).map (fun p => p.2)

/-- Field lookup on a `JValue` that is expected to be an object. -/
def objLookup (v : JValue) (k : String) : Option JValue :=
  match v with
  | .obj fields => lookupField fields k
  | _ => none

/-- The Go comma-ok type assertion `raw[key].(string)`: a non-string or
missing value yields the zero value `""`. -/
def assertString (fields : List (String × JValue)) (k : String) : String :=
  match lookupField fields k with
  | some (.str s) => s
  | _ => ""

/-- Character of the standard base64 alphabet at index `n` (`n < 64`). -/
def b64Char (n : Nat) : Char :=
  if n < 26 then Char.ofNat (65 + n)
  else if n < 52 then Char.ofNat (97 + (n - 26))
  else if n < 62 then Char.ofNat (48 + (n - 52))
  else if n = 62 then '+'
  else '/'

/-- Index of a character in the standard base64 alphabet, `none` if absent. -/
def b64Val (c : Char) : Option Nat :=
  if 'A' ≤ c ∧ c ≤ 'Z' then some (c.toNat - 65)
  else if 'a' ≤ c ∧ c ≤ 'z' then some (26 + (c.toNat - 97))
  else if '0' ≤ c ∧ c ≤ '9' then some (52 + (c.toNat - 48))
  else if c = '+' then some 62
  else if c = '/' then some 63
  else none

/-- Encoding loop of Go's `base64.StdEncoding.EncodeToString`: three input
bytes become four alphabet characters, with `=` padding for a short tail. -/
def base64EncodeGroups : List Nat → List Char
  | [] => []
  | [b0] =>
      [b64Char (b0 / 4), b64Char (b0 % 4 * 16), '=', '=']
  | [b0, b1] =>
      [b64Char (b0 / 4), b64Char (b0 % 4 * 16 + b1 / 16), b64Char (b1 % 16 * 4), '=']
  | b0 :: b1 :: b2 :: rest =>
      b64Char (b0 / 4) :: b64Char (b0 % 4 * 16 + b1 / 16) ::
      b64Char (b1 % 16 * 4 + b2 / 64) :: b64Char (b2 % 64) :: base64EncodeGroups rest

/-- Go's `base64.StdEncoding.EncodeToString` on a byte slice. -/
def base64Encode (bs : List Nat) : String :=
  String.mk (base64EncodeGroups bs)

/-- Decoding loop of Go's `base64.StdEncoding.DecodeString`: input length
must be a multiple of four, `=` padding may only close the final quantum;
trailing padding bits are not checked (`StdEncoding` is not strict). -/
def base64DecodeGroups : List Char → Option (List Nat)
  | [] => some []
  | c0 :: c1 :: c2 :: c3 :: rest =>
      match b64Val c0, b64Val c1 with
      | some v0, some v1 =>
          if c2 = '=' then
            if c3 = '=' ∧ rest = [] then some [v0 * 4 + v1 / 16] else none
          else
            match b64Val c2 with
            | some v2 =>
                if c3 = '=' then
                  if rest = [] then some [v0 * 4 + v1 / 16, v1 % 16 * 16 + v2 / 4] else none
                else
                  match b64Val c3 with
                  | some v3 =>
                      (base64DecodeGroups rest).map
                        (fun tl => (v0 * 4 + v1 / 16) :: (v1 % 16 * 16 + v2 / 4) ::
                                   (v2 % 4 * 64 + v3) :: tl)
                  | none => none
            | none => none
      | _, _ => none
  | _ => none

/-- Go's `base64.StdEncoding.DecodeString` (newline characters are skipped
by the standard decoder before quantum processing). -/
def base64Decode (s : String) : Option (List Nat) :=
  base64DecodeGroups (s.toList.filter (fun c => c ≠ '\r' ∧ c ≠ '\n'))

/-- Bytes of a Go string (`[]byte(s)`), as natural numbers. -/
def strBytes (s : String) : List Nat :=
  s.toUTF8.toList.map (fun b => b.toNat)

/-- Message type constant `MsgTypeOpenTunnel` from `types.go`. -/
def MsgTypeOpenTunnel : String := "open_tunnel"

/-- Message type constant `MsgTypeTunnelOpened` from `types.go`. -/
def MsgTypeTunnelOpened : String := "tunnel_opened"

/-- Message type constant `MsgTypeRequest` from `types.go`. -/
def MsgTypeRequest : String := "request"

/-- Message type constant `MsgTypeResponse` from `types.go`. -/
def MsgTypeResponse : String := "response"

/-- Message type constant `MsgTypeError` from `types.go`. -/
def MsgTypeError : String := "error"

/-- Message type constant `MsgTypeTCPConnection` from `types.go`. -/
def MsgTypeTCPConnection : String := "tcp_connection"

/-- Message type constant `MsgTypeTCPData` from `types.go`. -/
def MsgTypeTCPData : String := "tcp_data"

/-- Message type constant `MsgTypeUDPData` from `types.go`. -/
def MsgTypeUDPData : String := "udp_data"

/-- Message type constant `MsgTypeUDPResponse` from `types.go`. -/
def MsgTypeUDPResponse : String := "udp_response"

/-- Struct `TCPData` from `types.go` (JSON tags `type`, `connectionId`,
`data`); `typ` stands for the Go field `Type`, a reserved word in Lean. -/
structure TCPData where
  typ : String
  ConnectionID : String
  Data : String

/-- Struct `UDPData` from `types.go` (JSON tags `type`, `packetId`, `data`,
`sourceAddress`, `sourcePort`). -/
structure UDPData where
  typ : String
  PacketID : String
  Data : String
  SourceAddress : String
  SourcePort : Int

/-- Struct `UDPResponse` from `types.go` (JSON tags `type`, `packetId`,
`data`). -/
structure UDPResponse where
  typ : String
  PacketID : String
  Data : String

/-- Struct `OpenTunnelRequest`: handshake message built in `connectOnce`.
The `Subdomain` field is set by `connectOnce` in `client.go`; the version of
`types.go` declaring it is not in the repository snapshot, so its JSON tag
is Modelled from the spec: handshake field name `subdomain`. -/
structure OpenTunnelRequest where
  typ : String
  APIKey : String
  Protocol : String
  Port : Int
  Subdomain : String

/-- Struct `IncomingRequest` from `types.go` (JSON tags `id`, `method`,
`path`, `headers`, `body`; `Body []byte` decodes from a base64 string). -/
structure IncomingRequest where
  ID : String
  Method : String
  Path : String
  Headers : List (String × String)
  Body : List Nat

/-- Struct `IncomingResponse` from `types.go` (JSON tags `type`, `id`,
`statusCode`, `headers`, `body`). -/
structure IncomingResponse where
  typ : String
  ID : String
  StatusCode : Int
  Headers : List (String × String)
  Body : List Nat

/-- Struct `Config` from `client.go`. Callbacks are optional functions;
an error callback carries only the message it was given. -/
structure Config where
  ServerURL : String
  APIKey : String
  Protocol : String
  Port : Int
  Subdomain : String
  OnOpen : Option (String → Unit)
  OnRequest : Option (IncomingRequest → IncomingResponse)
  OnError : Option (String → Unit)

/-- JSON serialization of a `map[string]string` of headers. -/
def encodeHeaders (hs : List (String × String)) : JValue :=
  .obj (hs.map (fun p => (p.1, .str p.2)))

/-- JSON serialization of `IncomingResponse` as `conn.WriteJSON` performs
it, following the struct's field order and tags; `Body []byte` marshals to
a base64 string. -/
def encodeIncomingResponse (r : IncomingResponse) : JValue :=
  .obj [("type", .str r.typ), ("id", .str r.ID), ("statusCode", .num r.StatusCode),
        ("headers", encodeHeaders r.Headers), ("body", .str (base64Encode r.Body))]

/-- JSON serialization of `TCPData` as written by the TCP pump goroutine. -/
def encodeTCPData (m : TCPData) : JValue :=
  .obj [("type", .str m.typ), ("connectionId", .str m.ConnectionID), ("data", .str m.Data)]

/-- JSON serialization of `UDPResponse` as written by `handleUDPData`. -/
def encodeUDPResponse (m : UDPResponse) : JValue :=
  .obj [("type", .str m.typ), ("packetId", .str m.PacketID), ("data", .str m.Data)]

/-- JSON serialization of `OpenTunnelRequest` as written by `connectOnce`. -/
def encodeOpenTunnelRequest (m : OpenTunnelRequest) : JValue :=
  .obj [("type", .str m.typ), ("apiKey", .str m.APIKey), ("protocol", .str m.Protocol),
        ("port", .num m.Port), ("subdomain", .str m.Subdomain)]

/-- Handshake value built in `connectOnce` from the client configuration. -/
def mkHandshake (cfg : Config) : OpenTunnelRequest :=
  { typ := MsgTypeOpenTunnel, APIKey := cfg.APIKey, Protocol := cfg.Protocol,
    Port := cfg.Port, Subdomain := cfg.Subdomain }

/-- Go `json.Unmarshal` into a `string` struct field: missing or `null`
leaves the zero value, a JSON string is taken verbatim, anything else is an
unmarshal error. -/
def getStrField (fields : List (String × JValue)) (k : String) : Option String :=
  match lookupField fields k with
  | none => some ""
  | some .null => some ""
  | some (.str s) => some s
  | some _ => none

/-- Go `json.Unmarshal` into an `int` struct field: missing or `null`
leaves zero, a JSON number is taken, anything else errors. -/
def getIntField (fields : List (String × JValue)) (k : String) : Option Int :=
  match lookupField fields k with
  | none => some 0
  | some .null => some 0
  | some (.num n) => some n
  | some _ => none

/-- Go `json.Unmarshal` into a `map[string]string` field: missing or `null`
leaves a nil map, an object of string (or null) values decodes entrywise,
anything else errors. -/
def getHeadersField (fields : List (String × JValue)) (k : String) :
    Option (List (String × String)) :=
  match lookupField fields k with
  | none => some []
  | some .null => some []
  | some (.obj hs) =>
      hs.mapM (fun p =>
        match p.2 with
        | .str s => some (p.1, s)
        | .null => some (p.1, "")
        | _ => none)
  | some _ => none

/-- Go `json.Unmarshal` into a `[]byte` field: missing or `null` leaves a
nil slice, a JSON string must be valid base64, anything else errors. -/
def getBytesField (fields : List (String × JValue)) (k : String) : Option (List Nat) :=
  match lookupField fields k with
  | none => some []
  | some .null => some []
  | some (.str s) => base64Decode s
  | some _ => none

/-- `json.Unmarshal(data, &req)` for `IncomingRequest` in `readLoop`
(the marshal of the raw map followed by unmarshal into the struct). -/
def decodeIncomingRequest (fields : List (String × JValue)) : Option IncomingRequest :=
  match getStrField fields "id", getStrField fields "method", getStrField fields "path",
        getHeadersField fields "headers", getBytesField fields "body" with
  | some i, some m, some p, some h, some b =>
      some { ID := i, Method := m, Path := p, Headers := h, Body := b }
  | _, _, _, _, _ => none

/-- `json.Unmarshal(bytes, &packet)` for `UDPData` in `readLoop`. -/
def decodeUDPData (fields : List (String × JValue)) : Option UDPData :=
  match getStrField fields "type", getStrField fields "packetId", getStrField fields "data",
        getStrField fields "sourceAddress", getIntField fields "sourcePort" with
  | some t, some pid, some d, some sa, some sp =>
      some { typ := t, PacketID := pid, Data := d, SourceAddress := sa, SourcePort := sp }
  | _, _, _, _, _ => none

/-- Outcome of the local HTTP exchange performed by `proxyHTTP`: building
the request can fail, the round trip can fail, reading the body can fail,
or the local service answers with a status, multi-valued headers and a
body. -/
inductive HTTPResult where
  | newRequestError (errMsg : String)
  | doError (errMsg : String)
  | readBodyError (errMsg : String)
  | success (statusCode : Int) (headers : List (String × List String)) (body : List Nat)

/-- `proxyHTTP` from `http.go`: 500 with the error text when the request
cannot be built or the body cannot be read, 502 with a prefixed error text
on round-trip failure, otherwise the local status, each header collapsed to
its first value, and the body. `Type` and `ID` are left at their zero
values in every branch. -/
def proxyHTTP (res : HTTPResult) : IncomingResponse :=
  match res with
  | .newRequestError m =>
      { typ := "", ID := "", StatusCode := 500, Headers := [], Body := strBytes m }
  | .doError m =>
      { typ := "", ID := "", StatusCode := 502, Headers := [],
        Body := strBytes ("Proxy Error: " ++ m) }
  | .readBodyError m =>
      { typ := "", ID := "", StatusCode := 500, Headers := [], Body := strBytes m }
  | .success sc hs b =>
      { typ := "", ID := "", StatusCode := sc,
        Headers := hs.map (fun p => (p.1, p.2.headD "")), Body := b }

/-- `SendResponse` from `client.go`, as a function of the closed flag read
under the client mutex: when closed it returns the error `client is closed`
and writes nothing; otherwise it overwrites `resp.Type` with
`MsgTypeResponse` and the written frame is its `WriteJSON` serialization. -/
def sendResponse (closed : Bool) (resp : IncomingResponse) : Except String JValue :=
  if closed then .error "client is closed"
  else .ok (encodeIncomingResponse { resp with typ := MsgTypeResponse })

/-- Client runtime state relevant to `Close` and `SendResponse`: the closed
flag, the TCP stream table `tcpConns` (connection id to local socket
handle) and whether a transport connection is present (`c.conn != nil`). -/
structure ClientState where
  closed : Bool
  tcpConns : List (String × Nat)
  hasConn : Bool

/-- `SendResponse` with the client state made explicit: the method only
reads state under the mutex, so the state component is returned unchanged. -/
def SendResponseSt (st : ClientState) (resp : IncomingResponse) :
    ClientState × Except String JValue :=
  (st, sendResponse st.closed resp)

/-- The `MsgTypeRequest` arm of `readLoop`: decode `IncomingRequest` from
the raw frame (skipping on failure); with a registered `OnRequest` handler,
call it, force `resp.ID := req.ID` and send via `SendResponse`; otherwise,
when a port is configured and the protocol is http, proxy via `proxyHTTP`
(its local exchange given by `localHTTP`), force `resp.ID := req.ID` and
send. The result is the list of frames written to the transport. -/
def handleRequestCase (closed : Bool) (cfg : Config) (localHTTP : HTTPResult)
    (fields : List (String × JValue)) : List JValue :=
  match decodeIncomingRequest fields with
  | none => []
  | some req =>
      match cfg.OnRequest with
      | some h =>
          let resp := h req
          match sendResponse closed { resp with ID := req.ID } with
          | .ok f => [f]
          | .error _ => []
      | none =>
          if cfg.Port > 0 ∧ cfg.Protocol = "http" then
            let resp := proxyHTTP localHTTP
            match sendResponse closed { resp with ID := req.ID } with
            | .ok f => [f]
            | .error _ => []
          else []

/-- Handler selected by the `switch` in `readLoop` for one frame. -/
inductive DispatchAction where
  | none
  | onOpen (url : String)
  | tcpConnection (connID : String)
  | tcpData (connID : String) (dataB64 : String)
  | udpData (packet : UDPData)
  | request (req : IncomingRequest)
  | errorCb (msg : String)

/-- Result of one blocking `ReadJSON` in `readLoop`: a transport-level read
failure, the clean-close signal (`CloseNormalClosure`), or a decoded JSON
object. -/
inductive ReadResult where
  | failure
  | cleanClose
  | frame (fields : List (String × JValue))

/-- What one `readLoop` iteration does: continue the loop (dispatching the
given handler), return `nil` (clean exit), or return the read error. -/
inductive StepOutcome where
  | next (act : DispatchAction)
  | finishClean
  | failTransport

/-- Frame dispatch of `readLoop` from `client.go`: a frame whose `type`
field is missing or not a string is skipped; otherwise the `switch` on the
discriminator selects the handler, decoding `UDPData` / `IncomingRequest`
for their arms and skipping the frame when that decode fails; an
unrecognized discriminator falls through the `switch` and the loop
continues. -/
def dispatchFrame (cfg : Config) (fields : List (String × JValue)) : StepOutcome :=
  match lookupField fields "type" with
      | some (.str msgType) =>
          if msgType = MsgTypeTunnelOpened then
            match cfg.OnOpen with
            | some _ => .next (.onOpen (assertString fields "url"))
            | none => .next .none
          else if msgType = MsgTypeTCPConnection then
            .next (.tcpConnection (assertString fields "connectionId"))
          else if msgType = MsgTypeTCPData then
            .next (.tcpData (assertString fields "connectionId") (assertString fields "data"))
          else if msgType = MsgTypeUDPData then
            match decodeUDPData fields with
            | some packet => .next (.udpData packet)
            | none => .next .none
          else if msgType = MsgTypeRequest then
            match decodeIncomingRequest fields with
            | some req => .next (.request req)
            | none => .next .none
          else if msgType = MsgTypeError then
            match cfg.OnError with
            | some _ => .next (.errorCb (assertString fields "message"))
            | none => .next .none
          else .next .none
      | _ => .next .none

/-- One iteration of `readLoop`: a transport read failure returns the error
unless it is the clean-close signal, which returns `nil`; a decoded frame is
dispatched by `dispatchFrame` and the loop continues. -/
def readLoopStep (cfg : Config) (r : ReadResult) : StepOutcome :=
  match r with
  | .failure => .failTransport
  | .cleanClose => .finishClean
  | .frame fields => dispatchFrame cfg fields

/-- Lookup in the stream table (`c.tcpConns[connID]`). -/
def lookupConn (table : List (String × Nat)) (id : String) : Option Nat :=
  (table.find? (fun p => p.1 == id)).map (fun p => p.2)

/-- Go map assignment `c.tcpConns[connID] = localConn`: replaces any
existing entry for the key. -/
def setConn (table : List (String × Nat)) (id : String) (sock : Nat) :
    List (String × Nat) :=
  (id, sock) :: table.filter (fun p => p.1 ≠ id)

/-- Error message reported by `handleTCPConnection` on a local dial
failure (the wrapped dial error text is abstracted away). -/
def tcpDialErrMsg (port : Int) : String :=
  "failed to dial local tcp localhost:" ++ toString port

/-- Registration phase of `handleTCPConnection` from `tcp.go`: dial the
local service (`dialResult`, `none` on failure); on failure report through
the error callback when registered and return without touching the table;
on success register the stream entry. Returns the new table and the error
messages reported. -/
def handleTCPConnection (table : List (String × Nat)) (connID : String)
    (dialResult : Option Nat) (onErrorRegistered : Bool) (port : Int) :
    List (String × Nat) × List String :=
  match dialResult with
  | none => (table, if onErrorRegistered then [tcpDialErrMsg port] else [])
  | some sock => (setConn table connID sock, [])

/-- `handleTCPData` from `tcp.go`: look the id up in the stream table,
dropping the frame when absent; decode the base64 payload, dropping on
failure; otherwise write the bytes to the local socket. Returns the
(unchanged) table and the local writes performed as (socket, bytes). -/
def handleTCPData (table : List (String × Nat)) (connID : String) (dataB64 : String) :
    List (String × Nat) × List (Nat × List Nat) :=
  match lookupConn table connID with
  | none => (table, [])
  | some sock =>
      match base64Decode dataB64 with
      | none => (table, [])
      | some data => (table, [(sock, data)])

/-- One write to the transport: a control (ping) message or a JSON frame. -/
inductive OutboundWrite where
  | control (kind : String)
  | json (v : JValue)

/-- One iteration of the TCP pump goroutine in `handleTCPConnection` after
reading `chunk` from the local socket: under the client mutex, the
`tcp_data` frame is written only when the closed flag is unset. -/
def tcpPumpEmit (closed : Bool) (connID : String) (chunk : List Nat) : List OutboundWrite :=
  if closed then []
  else [.json (encodeTCPData
    { typ := MsgTypeTCPData, ConnectionID := connID, Data := base64Encode chunk })]

/-- One tick of the heartbeat goroutine in `connectOnce`: under the client
mutex, the ping control message is written only when the closed flag is
unset. -/
def heartbeatTick (closed : Bool) : List OutboundWrite :=
  if closed then [] else [.control "ping"]

/-- The handshake write in `connectOnce`: `WriteJSON(handshake)` is issued
without taking the client mutex and without consulting the closed flag, so
the frame is written regardless of the flag's value at write time (the
`closed` parameter records that value). -/
def handshakeEmit (_closed : Bool) (cfg : Config) : List OutboundWrite :=
  [.json (encodeOpenTunnelRequest (mkHandshake cfg))]

/-- Error message reported by `handleUDPData` on a local dial failure. -/
def udpDialErrMsg (port : Int) : String :=
  "failed to dial local udp localhost:" ++ toString port

/-- Environment of one UDP relay: whether the local dial succeeded, whether
the local write succeeded, and the bytes of the single reply datagram
(`none` when the read fails or the deadline expires first). -/
structure UDPEnv where
  dialOk : Bool
  writeOk : Bool
  readResult : Option (List Nat)

/-- Observable outcome of one `handleUDPData` call: error messages passed
to the error callback, frames written to the transport, and whether the
fresh local socket was closed. -/
structure UDPOutcome where
  errors : List String
  frames : List JValue
  socketClosed : Bool

/-- `handleUDPData` from `udp.go`: dial a fresh local UDP socket (reporting
through the error callback, when registered, on failure); from then on the
deferred `conn.Close()` runs in every path; decode the base64 payload,
write it and read one reply, returning silently when any of those fails;
on success build the `udp_response` frame correlated by the packet id and,
under the client mutex, write it only when the closed flag is unset. -/
def handleUDPData (closed : Bool) (onErrorRegistered : Bool) (port : Int)
    (packet : UDPData) (env : UDPEnv) : UDPOutcome :=
  if ¬ env.dialOk then
    { errors := if onErrorRegistered then [udpDialErrMsg port] else [],
      frames := [], socketClosed := false }
  else
    match base64Decode packet.Data with
    | none => { errors := [], frames := [], socketClosed := true }
    | some _ =>
        if ¬ env.writeOk then { errors := [], frames := [], socketClosed := true }
        else
          match env.readResult with
          | none => { errors := [], frames := [], socketClosed := true }
          | some reply =>
              let respMsg : UDPResponse :=
                { typ := MsgTypeUDPResponse, PacketID := packet.PacketID,
                  Data := base64Encode reply }
              { errors := [],
                frames := if ¬ closed then [encodeUDPResponse respMsg] else [],
                socketClosed := true }

/-- Value returned by `Close`: the literal `nil`, or whatever the transport
`conn.Close()` returned. -/
inductive CloseRet where
  | nil
  | transportCloseResult

/-- Observable result of one `Close` call. -/
structure CloseResult where
  st : ClientState
  localSocketsClosed : List Nat
  transportClosed : Bool
  ret : CloseRet

/-- `Close` from `client.go`: under the client mutex, an already-closed
client returns `nil` at once; otherwise the closed flag is set, every
stream table entry's local socket is closed, the table is replaced by a
fresh empty map, and the transport is closed when present (returning its
result), `nil` being returned when there is no transport. -/
def closeClient (st : ClientState) : CloseResult :=
  if st.closed then
    { st := st, localSocketsClosed := [], transportClosed := false, ret := .nil }
  else
    { st := { closed := true, tcpConns := [], hasConn := st.hasConn },
      localSocketsClosed := st.tcpConns.map (fun p => p.2),
      transportClosed := st.hasConn,
      ret := if st.hasConn then .transportCloseResult else .nil }

/-- Initial backoff of the `Connect` retry loop (`time.Second`), in
seconds. -/
def initialBackoff : Nat := 1

/-- Backoff cap of the `Connect` retry loop (`30 * time.Second`), in
seconds. -/
def maxBackoff : Nat := 30

/-- Backoff update after a failed attempt in `Connect`: `backoff *= 2`,
then capped at `maxBackoff`. -/
def nextBackoff (b : Nat) : Nat :=
  if b * 2 > maxBackoff then maxBackoff else b * 2

/-- The waits performed by the `Connect` retry loop, given the current
backoff and the outcomes of the successive `connectOnce` attempts (`true`
for an attempt that returned an error): a failed attempt waits the current
backoff and doubles-with-cap; an attempt that completed without error
resets the backoff to `initialBackoff` and retries without waiting. -/
def connectWaits : Nat → List Bool → List Nat
  | _, [] => []
  | b, true :: rest => b :: connectWaits (nextBackoff b) rest
  | _, false :: rest => connectWaits initialBackoff rest

/-- Whether a `readLoop` iteration continues the loop. -/
def StepOutcome.isNext : StepOutcome → Bool
  | .next _ => true
  | _ => false

/-- Sample configuration: default HTTP proxying on port 8080 with no
callbacks registered. -/
def cfgProxy : Config :=
  { ServerURL := "wss://api.outray.dev", APIKey := "k", Protocol := "http", Port := 8080,
    Subdomain := "", OnOpen := none, OnRequest := none, OnError := none }

/-- Sample configuration with a subdomain configured. -/
def cfgSub : Config :=
  { ServerURL := "wss://api.outray.dev", APIKey := "k", Protocol := "http", Port := 8080,
    Subdomain := "myapp", OnOpen := none, OnRequest := none, OnError := none }

/-- A request frame as in the spec scenario, carrying the identifier under
the key `requestId`. -/
def fieldsReqId : List (String × JValue) :=
  [("type", .str "request"), ("requestId", .str "123"),
   ("method", .str "GET"), ("path", .str "/")]

/-- A request frame carrying the identifier under the key `id` (the tag of
`IncomingRequest.ID`). -/
def fieldsId : List (String × JValue) :=
  [("type", .str "request"), ("id", .str "123"),
   ("method", .str "GET"), ("path", .str "/")]

/-- The decoded form of `fieldsId`. -/
def reqId123 : IncomingRequest :=
  { ID := "123", Method := "GET", Path := "/", Headers := [], Body := [] }

/-- A `udp_data` packet with an empty (valid base64) payload. -/
def packetEmpty : UDPData :=
  { typ := "udp_data", PacketID := "p1", Data := "", SourceAddress := "", SourcePort := 0 }

/-- A client state with two live TCP streams and a transport connection. -/
def stTwoStreams : ClientState :=
  { closed := false, tcpConns := [("a", 1), ("b", 2)], hasConn := true }

/-- An open client state with no streams. -/
def stOpen : ClientState :=
  { closed := false, tcpConns := [], hasConn := true }

/-- A closed client state. -/
def stClosed : ClientState :=
  { closed := true, tcpConns := [], hasConn := true }

/-- A response whose caller-supplied `Type` is not `response`. -/
def respGarb : IncomingResponse :=
  { typ := "garbage", ID := "9", StatusCode := 200, Headers := [], Body := [] }

/-- A frame with no `type` field. -/
def fieldsNoType : List (String × JValue) :=
  [("x", .null)]

/-- A frame with a non-string `type` discriminator. -/
def fieldsNumType : List (String × JValue) :=
  [("type", .num 3)]

/-- A frame with an unrecognized discriminator. -/
def fieldsUnknownType : List (String × JValue) :=
  [("type", .str "mystery")]

/-- A `request` frame whose payload is malformed for its kind (`body` must
be a base64 string or null, not a number). -/
def fieldsBadRequest : List (String × JValue) :=
  [("type", .str "request"), ("body", .num 5)]

/-- A `udp_data` frame whose payload is malformed for its kind (`packetId`
must be a string or null, not a number). -/
def fieldsBadUDP : List (String × JValue) :=
  [("type", .str "udp_data"), ("packetId", .num 7)]

/-! ## Backoff lemmas -/

theorem nextBackoff_min (j : Nat) : nextBackoff (min (2 ^ j) 30) = min (2 ^ (j + 1)) 30 := by
  have h1 : 1 ≤ 2 ^ j := Nat.one_le_two_pow
  have h2 : 2 ^ (j + 1) = 2 ^ j * 2 := by rw [pow_succ]
  unfold nextBackoff maxBackoff
  split <;> omega

theorem connectWaits_replicate (k j : Nat) :
    connectWaits (min (2 ^ j) 30) (List.replicate k true) =
      (List.range k).map (fun i => min (2 ^ (j + i)) 30) := by
  induction k generalizing j with
  | zero => simp [connectWaits]
  | succ n ih =>
      rw [List.replicate_succ]
      show min (2 ^ j) 30 :: connectWaits (nextBackoff (min (2 ^ j) 30)) (List.replicate n true)
            = _
      rw [nextBackoff_min, ih (j + 1), List.range_succ_eq_map, List.map_cons, List.map_map]
      refine congrArg₂ _ (by simp) ?_
      refine List.map_congr_left (fun a _ => ?_)
      have : j + 1 + a = j + (a + 1) := by omega
      simp [Function.comp, this]

/-- C2: for every sequence of consecutive failed connection attempts, the
wait before the next attempt after the (i+1)-st consecutive failure equals
`min(initial * 2^i, max)` with initial 1 s and max 30 s, and an attempt
that completes without error resets the backoff to the initial value. -/
theorem connect_backoff_spec :
    (∀ k i : Nat, i < k →
      (connectWaits initialBackoff (List.replicate k true))[i]? =
        some (min (initialBackoff * 2 ^ i) maxBackoff)) ∧
    (∀ (b : Nat) (rest : List Bool),
      connectWaits b (false :: rest) = connectWaits initialBackoff rest) := by
  constructor
  · intro k i hik
    have h0 : initialBackoff = min (2 ^ 0) 30 := by decide
    rw [h0, connectWaits_replicate k 0]
    rw [List.getElem?_map]
    simp [List.getElem?_range hik, initialBackoff, maxBackoff]
  · intro b rest
    rfl

/-- Witness for C2 at a run of seven consecutive failures (the seventh wait
is capped at 30 s) and at a clean attempt with current backoff 16 s. -/
theorem connect_backoff_spec_witness :
    (connectWaits initialBackoff (List.replicate 7 true))[6]? =
      some (min (initialBackoff * 2 ^ 6) maxBackoff) ∧
    connectWaits 16 (false :: [true]) = connectWaits initialBackoff [true] :=
  ⟨connect_backoff_spec.1 7 6 (by decide), connect_backoff_spec.2 16 [true]⟩

/-- C8: a `tcp_data` frame whose connection id is not in the stream table
is a no-op: the table is unchanged and nothing is written to any local
socket. -/
theorem tcp_data_unknown_id_noop (table : List (String × Nat)) (connID dataB64 : String)
    (h : lookupConn table connID = none) :
    handleTCPData table connID dataB64 = (table, []) := by
  unfold handleTCPData
  rw [h]

/-- Witness for C8 on an empty stream table. -/
theorem tcp_data_unknown_id_noop_witness :
    handleTCPData [] "abc" "SGVsbG8=" = ([], []) :=
  tcp_data_unknown_id_noop [] "abc" "SGVsbG8=" rfl

/-- C9: on a `tcp_connection` frame, a local dial failure reports through
the error callback exactly when one is registered and creates no stream
table entry; only a successful dial registers the entry. -/
theorem tcp_open_dial_outcome :
    ∀ (table : List (String × Nat)) (connID : String) (reg : Bool) (port : Int),
      ((handleTCPConnection table connID none reg port).1 = table ∧
        (handleTCPConnection table connID none reg port).2 =
          (if reg then [tcpDialErrMsg port] else [])) ∧
      (∀ sock : Nat,
        lookupConn (handleTCPConnection table connID (some sock) reg port).1 connID =
          some sock ∧
        (handleTCPConnection table connID (some sock) reg port).2 = []) := by
  intro table connID reg port
  refine ⟨⟨rfl, rfl⟩, fun sock => ⟨?_, rfl⟩⟩
  simp [handleTCPConnection, lookupConn, setConn, List.find?]

/-- Witness for C9 with an empty table and a registered error callback. -/
theorem tcp_open_dial_outcome_witness :
    (handleTCPConnection [] "c" none true 80).1 = [] ∧
    lookupConn (handleTCPConnection [] "c" (some 7) true 80).1 "c" = some 7 :=
  ⟨(tcp_open_dial_outcome [] "c" true 80).1.1, ((tcp_open_dial_outcome [] "c" true 80).2 7).1⟩

/-- C10: `SendResponse` leaves the client state unchanged; on a closed
client it returns the error `client is closed` and writes no frame; on an
open client the written frame is the serialization of the response with
its `Type` overwritten to `response`, whatever the caller supplied. -/
theorem sendresponse_closed_and_type :
    ∀ (st : ClientState) (resp : IncomingResponse),
      (SendResponseSt st resp).1 = st ∧
      (st.closed = true → (SendResponseSt st resp).2 = .error "client is closed") ∧
      (st.closed = false →
        (SendResponseSt st resp).2 =
          .ok (encodeIncomingResponse { resp with typ := MsgTypeResponse })) ∧
      (∀ f, (SendResponseSt st resp).2 = .ok f →
        objLookup f "type" = some (.str MsgTypeResponse)) := by
  intro st resp
  refine ⟨rfl, fun h => ?_, fun h => ?_, fun f hf => ?_⟩
  · simp [SendResponseSt, sendResponse, h]
  · simp [SendResponseSt, sendResponse, h]
  · unfold SendResponseSt sendResponse at hf
    by_cases h : st.closed
    · simp [h] at hf
    · simp [h] at hf
      subst hf
      rfl

/-- Witness for C10: an open client sends a frame whose `type` is
`response` although the caller supplied `garbage`, and a closed client is
rejected with `client is closed`. -/
theorem sendresponse_closed_and_type_witness :
    (SendResponseSt stOpen respGarb).2 =
      .ok (encodeIncomingResponse { respGarb with typ := MsgTypeResponse }) ∧
    objLookup (encodeIncomingResponse { respGarb with typ := MsgTypeResponse }) "type" =
      some (.str MsgTypeResponse) ∧
    (SendResponseSt stClosed respGarb).2 = .error "client is closed" := by
  have h1 := sendresponse_closed_and_type stOpen respGarb
  have h2 := sendresponse_closed_and_type stClosed respGarb
  exact ⟨h1.2.2.1 rfl, (h1.2.2.2 _ (h1.2.2.1 rfl)), h2.2.1 rfl⟩

/-- C4: `Close` is idempotent: on an already-closed client it is a no-op
returning `nil`; the first call flips the closed flag, closes every live
stream entry's local socket (each exactly once, the table holding distinct
sockets), clears the stream table, and closes the transport when present;
a second call on the resulting state is a no-op returning `nil`. -/
theorem close_idempotent :
    ∀ st : ClientState,
      (st.closed = true → closeClient st =
        { st := st, localSocketsClosed := [], transportClosed := false, ret := .nil }) ∧
      (st.closed = false →
        (closeClient st).st.closed = true ∧
        (closeClient st).st.tcpConns = [] ∧
        (closeClient st).localSocketsClosed = st.tcpConns.map (fun p => p.2) ∧
        (closeClient st).transportClosed = st.hasConn ∧
        closeClient ((closeClient st).st) =
          { st := (closeClient st).st, localSocketsClosed := [], transportClosed := false,
            ret := .nil } ∧
        ((st.tcpConns.map (fun p => p.2)).Nodup →
          ∀ s ∈ st.tcpConns.map (fun p => p.2),
            ((closeClient st).localSocketsClosed).count s = 1)) := by
  intro st
  constructor
  · intro h
    simp [closeClient, h]
  · intro h
    refine ⟨?_, ?_, ?_, ?_, ?_, ?_⟩
    · simp [closeClient, h]
    · simp [closeClient, h]
    · simp [closeClient, h]
    · simp [closeClient, h]
    · simp [closeClient, h]
    · intro hnd s hs
      simpa [closeClient, h] using List.count_eq_one_of_mem hnd hs

/-- Witness for C4 on a client with two live streams: both sockets are
closed exactly once, the table is cleared, and the second call is a no-op
returning `nil`. -/
theorem close_idempotent_witness :
    (closeClient stTwoStreams).st.tcpConns = [] ∧
    (closeClient stTwoStreams).localSocketsClosed = [1, 2] ∧
    ((closeClient stTwoStreams).localSocketsClosed).count 1 = 1 ∧
    ((closeClient stTwoStreams).localSocketsClosed).count 2 = 1 ∧
    closeClient ((closeClient stTwoStreams).st) =
      { st := (closeClient stTwoStreams).st, localSocketsClosed := [],
        transportClosed := false, ret := .nil } ∧
    closeClient stClosed =
      { st := stClosed, localSocketsClosed := [], transportClosed := false, ret := .nil } := by
  have h := (close_idempotent stTwoStreams).2 rfl
  have h2 := (close_idempotent stClosed).1 rfl
  exact ⟨h.2.1, h.2.2.1, h.2.2.2.2.2 (by decide) 1 (by decide),
         h.2.2.2.2.2 (by decide) 2 (by decide), h.2.2.2.2.1, h2⟩

/-- C7 (amended): on a `udp_data` frame, a local dial failure reports
through the error callback exactly when one is registered, sends no frame
and closes no socket (none was opened); once the dial succeeded the fresh
socket is closed in every path; a write failure or a missing reply (read
error / deadline expiry) aborts silently — no frame and no error report;
on success with the client not closed, exactly one `udp_response` frame
carrying the original packet id is sent. -/
theorem udp_relay_outcomes :
    ∀ (closed reg : Bool) (port : Int) (packet : UDPData) (env : UDPEnv),
      (env.dialOk = false →
        handleUDPData closed reg port packet env =
          { errors := if reg then [udpDialErrMsg port] else [],
            frames := [], socketClosed := false }) ∧
      (env.dialOk = true → (handleUDPData closed reg port packet env).socketClosed = true) ∧
      (env.dialOk = true → env.writeOk = false →
        (handleUDPData closed reg port packet env).frames = [] ∧
        (handleUDPData closed reg port packet env).errors = []) ∧
      (env.dialOk = true → env.readResult = none →
        (handleUDPData closed reg port packet env).frames = [] ∧
        (handleUDPData closed reg port packet env).errors = []) ∧
      (∀ d reply, env.dialOk = true → env.writeOk = true →
        base64Decode packet.Data = some d → env.readResult = some reply → closed = false →
        (handleUDPData closed reg port packet env).frames =
          [encodeUDPResponse { typ := MsgTypeUDPResponse, PacketID := packet.PacketID,
                               Data := base64Encode reply }] ∧
        (handleUDPData closed reg port packet env).errors = []) := by
  intro closed reg port packet env
  refine ⟨fun hd => ?_, fun hd => ?_, fun hd hw => ?_, fun hd hr => ?_,
          fun d reply hd hw hdec hr hc => ?_⟩
  · simp [handleUDPData, hd]
  · cases hdec : base64Decode packet.Data with
    | none => simp [handleUDPData, hd, hdec]
    | some l =>
        cases hw : env.writeOk with
        | false => simp [handleUDPData, hd, hdec, hw]
        | true =>
            cases hr : env.readResult with
            | none => simp [handleUDPData, hd, hdec, hw, hr]
            | some reply => simp [handleUDPData, hd, hdec, hw, hr]
  · cases hdec : base64Decode packet.Data with
    | none => simp [handleUDPData, hd, hdec]
    | some l => simp [handleUDPData, hd, hdec, hw]
  · cases hdec : base64Decode packet.Data with
    | none => simp [handleUDPData, hd, hdec]
    | some l =>
        cases hw : env.writeOk with
        | false => simp [handleUDPData, hd, hdec, hw]
        | true => simp [handleUDPData, hd, hdec, hw, hr]
  · simp [handleUDPData, hd, hdec, hw, hr, hc]

/-- Counterexample for C7 as stated: the local write fails while an error
callback is registered, yet nothing is reported — `errors` is empty (the
relay aborts silently; only a dial failure reaches the callback). -/
theorem udp_write_failure_silent_cex :
    handleUDPData false true 53 packetEmpty
        { dialOk := true, writeOk := false, readResult := none } =
      { errors := [], frames := [], socketClosed := true } := by
  rfl

/-- Witness for C7 (amended): dial failure with a registered callback
reports one error; a successful relay of an empty datagram with reply
bytes `Hello` sends one correlated `udp_response`. -/
theorem udp_relay_outcomes_witness :
    handleUDPData false true 53 packetEmpty
        { dialOk := false, writeOk := true, readResult := none } =
      { errors := [udpDialErrMsg 53], frames := [], socketClosed := false } ∧
    (handleUDPData false true 53 packetEmpty
        { dialOk := true, writeOk := true, readResult := some [72, 101, 108, 108, 111] }).frames =
      [encodeUDPResponse { typ := MsgTypeUDPResponse, PacketID := "p1",
                           Data := base64Encode [72, 101, 108, 108, 111] }] := by
  have h1 := udp_relay_outcomes false true 53 packetEmpty
    { dialOk := false, writeOk := true, readResult := none }
  have h2 := udp_relay_outcomes false true 53 packetEmpty
    { dialOk := true, writeOk := true, readResult := some [72, 101, 108, 108, 111] }
  refine ⟨?_, ?_⟩
  · simpa using h1.1 rfl
  · exact (h2.2.2.2.2 [] [72, 101, 108, 108, 111] rfl rfl rfl rfl rfl).1

/-- C3 (amended): the heartbeat, TCP pump, UDP relay and `SendResponse`
paths all check the closed flag under the client mutex and write nothing
once it is set; the handshake write in `connectOnce` is the exception and
is issued without consulting the flag. -/
theorem closed_flag_guards_outbound :
    heartbeatTick true = [] ∧
    (∀ connID chunk, tcpPumpEmit true connID chunk = []) ∧
    (∀ reg port packet env, (handleUDPData true reg port packet env).frames = []) ∧
    (∀ resp, sendResponse true resp = .error "client is closed") ∧
    (∀ cfg, handshakeEmit true cfg = [.json (encodeOpenTunnelRequest (mkHandshake cfg))]) := by
  refine ⟨rfl, fun connID chunk => rfl, fun reg port packet env => ?_, fun resp => rfl,
          fun cfg => rfl⟩
  cases hd : env.dialOk with
  | false => simp [handleUDPData, hd]
  | true =>
      cases hdec : base64Decode packet.Data with
      | none => simp [handleUDPData, hd, hdec]
      | some l =>
          cases hw : env.writeOk with
          | false => simp [handleUDPData, hd, hdec, hw]
          | true =>
              cases hr : env.readResult with
              | none => simp [handleUDPData, hd, hdec, hw, hr]
              | some reply => simp [handleUDPData, hd, hdec, hw, hr]

/-- Counterexample for C3 as stated: after `Close` has set the closed flag,
the handshake path of a concurrent reconnect attempt still writes its frame
— the claim that every outbound path (handshake included) is suppressed
once `Close` has run is false. -/
theorem handshake_emits_when_closed_cex :
    handshakeEmit true cfgProxy ≠ [] :=
  List.cons_ne_nil _ _

/-- C6 (amended): the handshake frame has type `open_tunnel` and carries
the configured auth key, protocol, local port and subdomain under the
fields `apiKey`, `protocol`, `port` and `subdomain`; it has no
`customDomain` or `forceTakeover` fields (the client offers no such
options). -/
theorem handshake_frame_fields :
    ∀ cfg : Config,
      objLookup (encodeOpenTunnelRequest (mkHandshake cfg)) "type" =
        some (.str MsgTypeOpenTunnel) ∧
      objLookup (encodeOpenTunnelRequest (mkHandshake cfg)) "apiKey" =
        some (.str cfg.APIKey) ∧
      objLookup (encodeOpenTunnelRequest (mkHandshake cfg)) "protocol" =
        some (.str cfg.Protocol) ∧
      objLookup (encodeOpenTunnelRequest (mkHandshake cfg)) "port" =
        some (.num cfg.Port) ∧
      objLookup (encodeOpenTunnelRequest (mkHandshake cfg)) "subdomain" =
        some (.str cfg.Subdomain) ∧
      objLookup (encodeOpenTunnelRequest (mkHandshake cfg)) "customDomain" = none ∧
      objLookup (encodeOpenTunnelRequest (mkHandshake cfg)) "forceTakeover" = none :=
  fun _ => ⟨rfl, rfl, rfl, rfl, rfl, rfl, rfl⟩

/-- Counterexample for C6 as stated: for a client configured with a
subdomain, the handshake frame contains no `customDomain` and no
`forceTakeover` field — the client has no custom-domain or force-takeover
options to carry. -/
theorem handshake_no_custom_domain_cex :
    objLookup (encodeOpenTunnelRequest (mkHandshake cfgSub)) "customDomain" = none ∧
    objLookup (encodeOpenTunnelRequest (mkHandshake cfgSub)) "forceTakeover" = none :=
  ⟨rfl, rfl⟩

/-- C1 (amended): a decoded `request` frame carries its identifier in the
`id` field; whether handled by a registered handler or by the default HTTP
proxy, the client sends exactly one `response` frame echoing that
identifier in its `id` field, with `statusCode`, `headers` and `body`
fields present; in particular a request frame with id `123` yields a
response frame with id `123`. -/
theorem response_echoes_request_id :
    ∀ (cfg : Config) (fields : List (String × JValue)) (req : IncomingRequest)
      (localHTTP : HTTPResult),
      decodeIncomingRequest fields = some req →
      ((∀ h, cfg.OnRequest = some h →
          handleRequestCase false cfg localHTTP fields =
            [encodeIncomingResponse { h req with typ := MsgTypeResponse, ID := req.ID }]) ∧
       (cfg.OnRequest = none → cfg.Port > 0 → cfg.Protocol = "http" →
          handleRequestCase false cfg localHTTP fields =
            [encodeIncomingResponse
              { proxyHTTP localHTTP with typ := MsgTypeResponse, ID := req.ID }])) ∧
      (∀ f ∈ handleRequestCase false cfg localHTTP fields,
        objLookup f "type" = some (.str MsgTypeResponse) ∧
        objLookup f "id" = some (.str req.ID) ∧
        (objLookup f "statusCode").isSome ∧
        (objLookup f "headers").isSome ∧
        (objLookup f "body").isSome) := by
  intro cfg fields req localHTTP hdec
  constructor
  · constructor
    · intro h hh
      simp [handleRequestCase, hdec, hh, sendResponse]
    · intro hnone hport hproto
      simp [handleRequestCase, hdec, hnone, hport, hproto, sendResponse]
  · intro f hf
    unfold handleRequestCase at hf
    rw [hdec] at hf
    cases hh : cfg.OnRequest with
    | some h =>
        rw [hh] at hf
        simp [sendResponse] at hf
        subst hf
        exact ⟨rfl, rfl, rfl, rfl, rfl⟩
    | none =>
        rw [hh] at hf
        by_cases hcond : cfg.Port > 0 ∧ cfg.Protocol = "http"
        · simp [hcond, sendResponse] at hf
          subst hf
          exact ⟨rfl, rfl, rfl, rfl, rfl⟩
        · simp [hcond] at hf

/-- Witness for C1 (amended): the spec scenario with the identifier under
`id` — default proxy, port 8080, local service answering 200 — sends one
response frame whose `id` equals `123`. -/
theorem response_echoes_request_id_witness :
    handleRequestCase false cfgProxy (.success 200 [] []) fieldsId =
      [encodeIncomingResponse
        { proxyHTTP (.success 200 [] []) with typ := MsgTypeResponse, ID := "123" }] ∧
    objLookup (encodeIncomingResponse
        { proxyHTTP (.success 200 [] []) with typ := MsgTypeResponse, ID := "123" }) "id" =
      some (.str "123") := by
  have h := response_echoes_request_id cfgProxy fieldsId reqId123 (.success 200 [] []) rfl
  exact ⟨h.1.2 rfl (by decide) rfl, rfl⟩

/-- Counterexample for C1 as stated: for the spec's frame
`{type:"request", requestId:"123", method:"GET", path:"/"}` handled by the
default proxy, the response frame has no `requestId` field at all and its
`id` field is the empty string, not `123` — the code reads and echoes the
JSON field `id`, not `requestId`. -/
theorem response_requestid_field_cex :
    (handleRequestCase false cfgProxy (.success 200 [] []) fieldsReqId).map
        (fun f => objLookup f "requestId") = [none] ∧
    (handleRequestCase false cfgProxy (.success 200 [] []) fieldsReqId).map
        (fun f => objLookup f "id") = [some (.str "")] :=
  ⟨rfl, rfl⟩

/-- C5: a read failure (other than the clean-close signal) makes `readLoop`
return the error; the clean-close signal ends it without error; a frame
with a missing or non-string discriminator, an unrecognized discriminator,
or a payload malformed for its kind (`request`, `udp_data`) is skipped and
the loop continues; no frame ever ends the loop. -/
theorem readloop_decode_failures_skipped :
    ∀ cfg : Config,
      readLoopStep cfg .failure = .failTransport ∧
      readLoopStep cfg .cleanClose = .finishClean ∧
      (∀ fields, (∀ s, lookupField fields "type" ≠ some (.str s)) →
        readLoopStep cfg (.frame fields) = .next .none) ∧
      (∀ fields s, lookupField fields "type" = some (.str s) →
        s ≠ MsgTypeTunnelOpened → s ≠ MsgTypeTCPConnection → s ≠ MsgTypeTCPData →
        s ≠ MsgTypeUDPData → s ≠ MsgTypeRequest → s ≠ MsgTypeError →
        readLoopStep cfg (.frame fields) = .next .none) ∧
      (∀ fields, lookupField fields "type" = some (.str MsgTypeRequest) →
        decodeIncomingRequest fields = none →
        readLoopStep cfg (.frame fields) = .next .none) ∧
      (∀ fields, lookupField fields "type" = some (.str MsgTypeUDPData) →
        decodeUDPData fields = none →
        readLoopStep cfg (.frame fields) = .next .none) ∧
      (∀ fields, (readLoopStep cfg (.frame fields)).isNext = true) := by
  intro cfg
  refine ⟨rfl, rfl, ?_, ?_, ?_, ?_, ?_⟩
  · intro fields h
    show dispatchFrame cfg fields = .next .none
    unfold dispatchFrame
    cases hl : lookupField fields "type" with
    | none => rfl
    | some v =>
        cases v with
        | str s => exact absurd hl (h s)
        | null => rfl
        | bool b => rfl
        | num n => rfl
        | arr l => rfl
        | obj o => rfl
  · intro fields s hl h1 h2 h3 h4 h5 h6
    show dispatchFrame cfg fields = .next .none
    unfold dispatchFrame
    rw [hl]
    simp [h1, h2, h3, h4, h5, h6]
  · intro fields hl hdec
    show dispatchFrame cfg fields = .next .none
    unfold dispatchFrame
    rw [hl, hdec]
    simp [MsgTypeRequest, MsgTypeTunnelOpened, MsgTypeTCPConnection, MsgTypeTCPData,
          MsgTypeUDPData]
  · intro fields hl hdec
    show dispatchFrame cfg fields = .next .none
    unfold dispatchFrame
    rw [hl, hdec]
    simp [MsgTypeUDPData, MsgTypeTunnelOpened, MsgTypeTCPConnection, MsgTypeTCPData]
  · intro fields
    show (dispatchFrame cfg fields).isNext = true
    unfold dispatchFrame
    split
    · split_ifs <;>
        first
        | rfl
        | (cases cfg.OnOpen <;> rfl)
        | (cases decodeUDPData fields <;> rfl)
        | (cases decodeIncomingRequest fields <;> rfl)
        | (cases cfg.OnError <;> rfl)
    · rfl

/-- Witness for C5 on concrete frames: a frame with no `type`, one with a
non-string `type`, one with discriminator `mystery`, a `request` frame with
a numeric `body`, and a `udp_data` frame with a numeric `packetId` are all
skipped, while a read failure returns the error and the clean-close signal
ends the loop without error. -/
theorem readloop_decode_failures_skipped_witness :
    readLoopStep cfgProxy .failure = .failTransport ∧
    readLoopStep cfgProxy .cleanClose = .finishClean ∧
    readLoopStep cfgProxy (.frame fieldsNoType) = .next .none ∧
    readLoopStep cfgProxy (.frame fieldsNumType) = .next .none ∧
    readLoopStep cfgProxy (.frame fieldsUnknownType) = .next .none ∧
    readLoopStep cfgProxy (.frame fieldsBadRequest) = .next .none ∧
    readLoopStep cfgProxy (.frame fieldsBadUDP) = .next .none := by
  have h := readloop_decode_failures_skipped cfgProxy
  exact ⟨h.1, h.2.1,
         h.2.2.1 fieldsNoType (fun s hs => Option.noConfusion hs),
         h.2.2.1 fieldsNumType (fun s hs => JValue.noConfusion (Option.some.inj hs)),
         h.2.2.2.1 fieldsUnknownType "mystery" rfl (by decide) (by decide) (by decide)
           (by decide) (by decide) (by decide),
         h.2.2.2.2.1 fieldsBadRequest rfl rfl,
         h.2.2.2.2.2.1 fieldsBadUDP rfl rfl⟩

end Outray
